import Mathlib

/-!
Verification development for the escrow-backed campaign settlement engine of
the `digital_agency` marketplace repository.

The definitions below are a shallow embedding of the settlement code in
`routers/campaigns.py`, `routers/open_campaigns.py`, `routers/bids.py`,
`routers/disputes.py`, `routers/proof_of_work.py`, `routers/orders.py` and
`routers/wallet.py`.  Money amounts are integers in minor currency units
(cents), embedded as `Int` (Python integers; subtraction may in principle go
negative, which `Int` preserves).  Database rows that a handler assumes to
exist (the wallets of the two parties, the escrow row referenced by
`campaign.escrow_id`) are embedded as plain fields of the state record; each
handler's status guards are translated literally.  Handlers are embedded as
functions `State -> State x Option Err`: `none` is a successful HTTP
response, `some e` is a raised exception, and the returned state is the state
the database commit left behind (for a guard failure raised before any
mutation this is the unchanged input state).
-/

namespace DigitalAgency

/-- Wallet row (`database/marketplace_models.py`, class `Wallet`): integer
cent columns `balance`, `hold_balance`, `total_earned`, `total_spent`. -/
structure Wallet where
  balance : Int
  hold_balance : Int
  total_earned : Int
  total_spent : Int
deriving DecidableEq

/-- Escrow hold status enum (`EscrowStatusDB`). -/
inductive EscrowStatus where
  | locked
  | released
  | refunded
  | disputed
deriving DecidableEq

/-- Campaign status enum (`CampaignStatusDB`); `open` is a Lean keyword so
the bidding status is spelled `open_`. -/
inductive CampaignStatus where
  | open_
  | closed
  | pending
  | accepted
  | in_progress
  | draft_submitted
  | revision_requested
  | draft_approved
  | published
  | pending_review
  | completed
  | disputed
  | cancelled
deriving DecidableEq

/-- Bid status enum (`BidStatusDB`). -/
inductive BidStatus where
  | pending
  | accepted
  | rejected
  | withdrawn
  | completed
  | paid
deriving DecidableEq

/-- Dispute status enum (`DisputeStatusDB`). -/
inductive DisputeStatus where
  | open_
  | under_review
  | resolved
  | closed
deriving DecidableEq

/-- Proof-of-work status enum (`ProofOfWorkStatus`). -/
inductive PowStatus where
  | pending
  | approved
  | rejected
  | revision_requested
deriving DecidableEq

/-- Wallet transaction type enum (`WalletTransactionTypeDB`), plus the
string literal `"affiliate_commission"` used directly by `orders.py`. -/
inductive TxType where
  | deposit
  | withdrawal
  | escrow_lock
  | escrow_release
  | escrow_refund
  | platform_fee_tx
  | transfer
  | affiliate_commission
deriving DecidableEq

/-- Wallet transaction status enum (`WalletTransactionStatusDB`). -/
inductive TxStatus where
  | pending
  | processing
  | completed
  | failed
  | cancelled
deriving DecidableEq

/-- Ledger transaction row (`WalletTransaction`): the money fields of one
record.  The wallet id / description / timestamp columns carry no settlement
logic and are not embedded. -/
structure Tx where
  transaction_type : TxType
  tx_status : TxStatus
  amount : Int
  fee : Int
  net_amount : Int
deriving DecidableEq

/-- Error kinds raised by the embedded handlers (each is an
`HTTPException` in the source, except `nameError`, which models an uncaught
Python `NameError`). -/
inductive Err where
  | notFound
  | invalidState
  | insufficientFunds
  | budgetExceeded
  | alreadyResolved
  | invalidUser
  | nameError
deriving DecidableEq

/-- Platform fee as the source computes it: `int(amount * percent / 100)`
(`campaigns.py:807`, `proof_of_work.py:421`, `disputes.py:235,258`).  The
Python pipeline is exact-integer multiplication, binary64 true division and
truncation toward zero; for every amount storable in the models' 32-bit
`Integer` columns the quotient `amount * percent / 100` is far below `2^53`,
where that pipeline returns exactly the floor, so it is embedded as integer
division. -/
def platform_fee (amount percent : Int) : Int :=
  amount * percent / 100

/-- State touched by the direct-purchase campaign lifecycle of
`routers/campaigns.py`: the campaign row, its escrow row, the two wallets
and the append-only transaction log. -/
structure CState where
  campaign_status : CampaignStatus
  escrow_status : EscrowStatus
  escrow_amount : Int
  brand_wallet : Wallet
  influencer_wallet : Wallet
  tx_log : List Tx
deriving DecidableEq

/-- Embedding of `_release_escrow(campaign, db, refund)`
(`campaigns.py:756-835`) with both parties' wallet rows present.  If the
hold is not `locked` the function returns silently.  The `refund` branch
decrements the brand's `hold_balance`, marks the hold `refunded` and logs an
`escrow_refund` transaction.  The pay branch computes the platform fee,
decrements the brand's `hold_balance`, increments the brand's `total_spent`,
credits the influencer's `balance` and `total_earned` with the net amount,
marks the hold `released` and logs an `escrow_release` transaction.  Note
the source never decrements the brand's `balance` column in either branch. -/
def release_escrow (fee_percent : Int) (refund : Bool) (s : CState) : CState :=
  if s.escrow_status ≠ EscrowStatus.locked then s
  else if refund then
    { s with
      brand_wallet :=
        { s.brand_wallet with
          hold_balance := s.brand_wallet.hold_balance - s.escrow_amount }
      escrow_status := EscrowStatus.refunded
      tx_log := s.tx_log ++
        [⟨TxType.escrow_refund, TxStatus.completed, s.escrow_amount, 0,
          s.escrow_amount⟩] }
  else
    let fee := platform_fee s.escrow_amount fee_percent
    let influencer_payment := s.escrow_amount - fee
    { s with
      brand_wallet :=
        { s.brand_wallet with
          hold_balance := s.brand_wallet.hold_balance - s.escrow_amount
          total_spent := s.brand_wallet.total_spent + s.escrow_amount }
      influencer_wallet :=
        { s.influencer_wallet with
          balance := s.influencer_wallet.balance + influencer_payment
          total_earned := s.influencer_wallet.total_earned + influencer_payment }
      escrow_status := EscrowStatus.released
      tx_log := s.tx_log ++
        [⟨TxType.escrow_release, TxStatus.completed, s.escrow_amount, fee,
          influencer_payment⟩] }

/-- Embedding of `complete_campaign` (`campaigns.py:586-647`): requires the
campaign to be `published` or `pending_review`, releases the escrow to the
influencer and marks the campaign `completed`. -/
def complete_campaign (fee_percent : Int) (s : CState) : CState × Option Err :=
  if s.campaign_status = CampaignStatus.published ∨
      s.campaign_status = CampaignStatus.pending_review then
    let s' := release_escrow fee_percent false s
    ({ s' with campaign_status := CampaignStatus.completed }, none)
  else (s, some Err.invalidState)

/-- Embedding of `reject_campaign` (`campaigns.py:369-403`): requires the
campaign to be `pending`, refunds the escrow to the brand and marks the
campaign `cancelled`. -/
def reject_campaign (fee_percent : Int) (s : CState) : CState × Option Err :=
  if s.campaign_status = CampaignStatus.pending then
    let s' := release_escrow fee_percent true s
    ({ s' with campaign_status := CampaignStatus.cancelled }, none)
  else (s, some Err.invalidState)

/-- Result of the escrow-lock step of `create_campaign`
(`campaigns.py:92-125`): the updated buyer wallet, the `escrow_lock`
transaction and the created hold's status. -/
structure LockResult where
  wallet : Wallet
  lock_tx : Tx
  escrow_status : EscrowStatus
deriving DecidableEq

/-- Embedding of the funds-locking step of `create_campaign`
(`campaigns.py:92-125`): fails when `balance - hold_balance < price`;
otherwise logs a `completed` `escrow_lock` transaction, creates a `locked`
hold and increments `hold_balance` by the price, leaving `balance`
unchanged. -/
def create_campaign_lock (price : Int) (w : Wallet) : Except Err LockResult :=
  let available := w.balance - w.hold_balance
  if available < price then Except.error Err.insufficientFunds
  else Except.ok
    { wallet := { w with hold_balance := w.hold_balance + price }
      lock_tx := ⟨TxType.escrow_lock, TxStatus.completed, price, 0, price⟩
      escrow_status := EscrowStatus.locked }

/-- Bid row (`Bid` model): the amount in cents, the lifecycle status, the
bidder's influencer profile id and, once the bid is accepted through
`open_campaigns.py`, the index of its escrow hold. -/
structure BidRow where
  amount : Int
  bid_status : BidStatus
  influencer_id : Nat
  escrow_id : Option Nat
deriving DecidableEq

/-- Escrow hold row as needed by the bid-based paths: status and amount. -/
structure EscrowRow where
  escrow_status : EscrowStatus
  amount : Int
deriving DecidableEq

/-- State touched by `accept_bid` in `routers/open_campaigns.py`: the open
campaign's budget columns, its bid rows, the brand's wallet, the escrow
table and the transaction log. -/
structure OState where
  budget : Int
  budget_spent : Int
  bids : List BidRow
  wallet : Wallet
  escrows : List EscrowRow
  tx_log : List Tx
deriving DecidableEq

/-- Embedding of `accept_bid` (`open_campaigns.py:444-539`), accepting the
bid at index `i`.  Guards, in source order: the bid must exist, must be
`pending`, must fit in `budget - budget_spent`, and the wallet must satisfy
`balance >= amount` (the source compares against `balance`, not against
`balance - hold_balance`).  On success it logs a `completed` `escrow_lock`
transaction, appends a `locked` hold, decrements `balance` and increments
`hold_balance` by the amount, marks the bid `accepted` with its escrow id,
and adds the amount to `budget_spent`.  No other bid row is touched and the
campaign status is not changed. -/
def open_accept_bid (i : Nat) (s : OState) : OState × Option Err :=
  match s.bids[i]? with
  | none => (s, some Err.notFound)
  | some bid =>
    if bid.bid_status ≠ BidStatus.pending then (s, some Err.invalidState)
    else if bid.amount > s.budget - s.budget_spent then (s, some Err.budgetExceeded)
    else if s.wallet.balance < bid.amount then (s, some Err.insufficientFunds)
    else
      ({ s with
          tx_log := s.tx_log ++
            [⟨TxType.escrow_lock, TxStatus.completed, bid.amount, 0, bid.amount⟩]
          escrows := s.escrows ++ [⟨EscrowStatus.locked, bid.amount⟩]
          wallet :=
            { s.wallet with
              balance := s.wallet.balance - bid.amount
              hold_balance := s.wallet.hold_balance + bid.amount }
          bids := s.bids.set i
            { bid with
              bid_status := BidStatus.accepted
              escrow_id := some s.escrows.length }
          budget_spent := s.budget_spent + bid.amount }, none)

/-- State touched by `accept_bid` in `routers/bids.py`: the campaign's
status and `influencer_id` column, the bid rows, and — to state what the
handler does **not** touch — the brand wallet, the escrow table and the
transaction log. -/
structure BState where
  campaign_status : CampaignStatus
  campaign_influencer_id : Option Nat
  bids : List BidRow
  wallet : Wallet
  escrows : List EscrowRow
  tx_log : List Tx
deriving DecidableEq

/-- Cascade of `bids.py:233-247`: the bid at index `i` becomes `accepted`;
every other bid whose status is `pending` becomes `rejected`; all other rows
are unchanged.  `j` is the index of the list head. -/
def accept_cascade (i j : Nat) : List BidRow → List BidRow
  | [] => []
  | b :: rest =>
    let b' :=
      if j = i then { b with bid_status := BidStatus.accepted }
      else if b.bid_status = BidStatus.pending then
        { b with bid_status := BidStatus.rejected }
      else b
    b' :: accept_cascade i (j + 1) rest

/-- Embedding of `accept_bid` (`bids.py:203-262`), accepting the bid at
index `i`.  Guards: the bid must exist and be `pending`.  On success the bid
becomes `accepted`, the campaign takes the bid's `influencer_id` and status
`accepted`, and every other `pending` bid on the campaign is set to
`rejected`.  The handler performs no wallet, escrow or ledger operation. -/
def bids_accept_bid (i : Nat) (s : BState) : BState × Option Err :=
  match s.bids[i]? with
  | none => (s, some Err.notFound)
  | some bid =>
    if bid.bid_status ≠ BidStatus.pending then (s, some Err.invalidState)
    else
      ({ s with
          bids := accept_cascade i 0 s.bids
          campaign_influencer_id := some bid.influencer_id
          campaign_status := CampaignStatus.accepted }, none)

/-- State touched by `review_proof_of_work` (`routers/proof_of_work.py`):
the proof row, the campaign status, the reviewed bid's amount and escrow,
and both parties' wallets (the brand wallet appears only so that the frame
property can be stated). -/
structure PState where
  proof_status : PowStatus
  campaign_status : CampaignStatus
  bid_amount : Int
  bid_has_escrow : Bool
  escrow_status : EscrowStatus
  brand_wallet : Wallet
  influencer_wallet : Wallet
  tx_log : List Tx
deriving DecidableEq

/-- Embedding of `review_proof_of_work` (`proof_of_work.py:344-501`) with
the influencer's wallet row present.  A non-`pending` proof is rejected with
an error.  On approval the proof becomes `approved`, the campaign
`completed`, and — when the bid has an escrow hold that is still `locked` —
the platform fee is computed, a `completed` `escrow_release` transaction is
logged (the source stores the **net** amount in the `amount` column), the
hold becomes `released` and the influencer's `balance` and `total_earned`
are credited with the net amount.  The brand's wallet is never read or
written.  On rejection only the proof status changes. -/
def review_proof_of_work (fee_percent : Int) (approved : Bool) (s : PState) :
    PState × Option Err :=
  if s.proof_status ≠ PowStatus.pending then (s, some Err.invalidState)
  else if approved then
    let s₁ :=
      { s with
        proof_status := PowStatus.approved
        campaign_status := CampaignStatus.completed }
    if s.bid_has_escrow ∧ s.escrow_status = EscrowStatus.locked then
      let fee := platform_fee s.bid_amount fee_percent
      let net_amount := s.bid_amount - fee
      ({ s₁ with
          tx_log := s₁.tx_log ++
            [⟨TxType.escrow_release, TxStatus.completed, net_amount, fee,
              net_amount⟩]
          escrow_status := EscrowStatus.released
          influencer_wallet :=
            { s₁.influencer_wallet with
              balance := s₁.influencer_wallet.balance + net_amount
              total_earned := s₁.influencer_wallet.total_earned + net_amount } },
        none)
    else (s₁, none)
  else ({ s with proof_status := PowStatus.rejected }, none)

/-- State touched by `resolve_dispute` (`routers/disputes.py`): the dispute
row, the campaign status, the escrow row and both wallets. -/
structure DState where
  dispute_status : DisputeStatus
  campaign_status : CampaignStatus
  escrow_status : EscrowStatus
  escrow_amount : Int
  brand_wallet : Wallet
  influencer_wallet : Wallet
  tx_log : List Tx
deriving DecidableEq

/-- Embedding of `resolve_dispute` (`disputes.py:187-304`) with both wallet
rows present (the `resolved_in_favor_of` identity check of lines 212-221 is
an ownership check with no settlement effect and is not embedded).  A
`resolved` or `closed` dispute fails with the already-resolved error.
Otherwise, when the hold is `disputed`: `refund_amount =
int(amount * refund_percentage / 100)`, `release_amount = amount -
refund_amount`; the brand's `hold_balance` drops by the full amount; a
refund transaction is logged when `refund_amount > 0`; when
`release_amount > 0` a release with a hardcoded 10 percent fee credits the
influencer; the hold becomes `refunded` when `refund_percentage == 100`,
else `released`.  The dispute becomes `resolved` and the campaign
`cancelled` when `refund_percentage == 100`, else `completed`. -/
def resolve_dispute (refund_percentage : Int) (s : DState) : DState × Option Err :=
  if s.dispute_status = DisputeStatus.resolved ∨
      s.dispute_status = DisputeStatus.closed then
    (s, some Err.alreadyResolved)
  else
    let s₁ :=
      if s.escrow_status = EscrowStatus.disputed then
        let refund_amount := s.escrow_amount * refund_percentage / 100
        let release_amount := s.escrow_amount - refund_amount
        let s₂ :=
          { s with
            brand_wallet :=
              { s.brand_wallet with
                hold_balance := s.brand_wallet.hold_balance - s.escrow_amount } }
        let s₃ :=
          if refund_amount > 0 then
            { s₂ with
              tx_log := s₂.tx_log ++
                [⟨TxType.escrow_refund, TxStatus.completed, refund_amount, 0,
                  refund_amount⟩] }
          else s₂
        let s₄ :=
          if release_amount > 0 then
            let fee := release_amount * 10 / 100
            let net_release := release_amount - fee
            { s₃ with
              influencer_wallet :=
                { s₃.influencer_wallet with
                  balance := s₃.influencer_wallet.balance + net_release
                  total_earned := s₃.influencer_wallet.total_earned + net_release }
              tx_log := s₃.tx_log ++
                [⟨TxType.escrow_release, TxStatus.completed, release_amount, fee,
                  net_release⟩] }
          else s₃
        { s₄ with
          escrow_status :=
            if refund_percentage = 100 then EscrowStatus.refunded
            else EscrowStatus.released }
      else s
    ({ s₁ with
        dispute_status := DisputeStatus.resolved
        campaign_status :=
          if refund_percentage = 100 then CampaignStatus.cancelled
          else CampaignStatus.completed }, none)

/-- Order status enum (`schemas/affiliate.py`, class `OrderStatus`). -/
inductive OrderStatus where
  | pending
  | contacted
  | in_progress
  | fulfilled
  | cancelled
deriving DecidableEq

/-- Commission status enum (`CommissionStatus`). -/
inductive CommissionStatus where
  | pending
  | paid
  | cancelled
deriving DecidableEq

/-- State touched by `update_order_status` (`routers/orders.py`): the order
row, its affiliate commission row and the attributed influencer's wallet.
The source stores commission money in currency units (`Numeric(10,2)`) and
converts with `int(x * 100)` when crediting; the commission's fee and net
amounts are embedded directly in cents. -/
structure OrdState where
  order_status : OrderStatus
  commission_status : CommissionStatus
  net_commission_cents : Int
  platform_fee_cents : Int
  wallet : Wallet
  tx_log : List Tx
deriving DecidableEq

/-- Embedding of `update_order_status` (`orders.py:973-1118`) with the
commission row and influencer wallet present.  The order takes the new
status unconditionally.  When the new status is `fulfilled` and the old one
was not, a still-`pending` commission is paid: a `completed`
`affiliate_commission` transaction is logged, the wallet's `balance` and
`total_earned` are credited with the net commission and the commission
becomes `paid`.  When the new status is `cancelled` and the old one was
not, a still-`pending` commission becomes `cancelled` with no wallet
movement.  No other transition touches the commission or the wallet. -/
def update_order_status (new_status : OrderStatus) (s : OrdState) : OrdState :=
  let old_status := s.order_status
  let s₁ := { s with order_status := new_status }
  let s₂ :=
    if new_status = OrderStatus.fulfilled ∧ old_status ≠ OrderStatus.fulfilled ∧
        s₁.commission_status = CommissionStatus.pending then
      { s₁ with
        tx_log := s₁.tx_log ++
          [⟨TxType.affiliate_commission, TxStatus.completed,
            s₁.net_commission_cents, s₁.platform_fee_cents,
            s₁.net_commission_cents⟩]
        wallet :=
          { s₁.wallet with
            balance := s₁.wallet.balance + s₁.net_commission_cents
            total_earned := s₁.wallet.total_earned + s₁.net_commission_cents }
        commission_status := CommissionStatus.paid }
    else s₁
  if new_status = OrderStatus.cancelled ∧ old_status ≠ OrderStatus.cancelled ∧
      s₂.commission_status = CommissionStatus.pending then
    { s₂ with commission_status := CommissionStatus.cancelled }
  else s₂

/-- State touched by `request_withdrawal` (`routers/wallet.py`): the
caller's wallet and the transaction log. -/
structure WState where
  wallet : Wallet
  tx_log : List Tx
deriving DecidableEq

/-- Embedding of `request_withdrawal` (`wallet.py:201-257`).  The request
amount is in whole currency units and is converted to cents
(`amount_cents = amount * 100`); the fee is zero.  When `amount_cents`
exceeds `balance - hold_balance` the handler fails with the insufficient
funds error before any mutation.  Otherwise it commits a `pending`
`withdrawal` transaction and `hold_balance += amount_cents`, and then the
response dictionary of lines 250-257 reads the names `fee` and `net_amount`,
which were never bound (the code defined `fee_cents` and
`net_amount_cents`), so the handler raises an uncaught Python `NameError`
after the commit — embedded as `some Err.nameError` together with the
already-committed state. -/
def request_withdrawal (amount : Int) (s : WState) : WState × Option Err :=
  let amount_cents := amount * 100
  let fee_cents : Int := 0
  let net_amount_cents := amount_cents - fee_cents
  let available_balance := s.wallet.balance - s.wallet.hold_balance
  if amount_cents > available_balance then (s, some Err.insufficientFunds)
  else
    ({ s with
        tx_log := s.tx_log ++
          [⟨TxType.withdrawal, TxStatus.pending, amount_cents, fee_cents,
            net_amount_cents⟩]
        wallet :=
          { s.wallet with
            hold_balance := s.wallet.hold_balance + amount_cents } },
      some Err.nameError)

/-! ### Claim theorems -/

/-- Spec scenario 1 after the lock step: brand wallet held 10000 with 5000
locked for the 5000-cent package, influencer wallet empty, hold locked. -/
def scenario1 : CState :=
  ⟨CampaignStatus.published, EscrowStatus.locked, 5000,
    ⟨10000, 5000, 0, 0⟩, ⟨0, 0, 0, 0⟩, []⟩

/-- C1: evaluating `_release_escrow` (pay branch, 10 percent fee) at the
spec's concrete scenario shows the code computes fee 500 and credits the
influencer 4500 and marks the hold released as claimed, but leaves the
brand's `balance` at 10000 — it only decrements `hold_balance` and
increments `total_spent`, never `balance`, so the brand's final balance is
not the 5000 the claim requires. -/
theorem claim_C1_release_keeps_brand_balance :
    release_escrow 10 false scenario1 =
      ⟨CampaignStatus.published, EscrowStatus.released, 5000,
        ⟨10000, 0, 0, 5000⟩, ⟨4500, 0, 4500, 0⟩,
        [⟨TxType.escrow_release, TxStatus.completed, 5000, 500, 4500⟩]⟩ ∧
    (release_escrow 10 false scenario1).brand_wallet.balance ≠ 10000 - 5000 := by
  decide

/-- C4: completing a campaign is idempotent in the error-rejecting sense:
whenever `complete_campaign` succeeds and returns the committed state `s₁`,
running it again on `s₁` raises the invalid-state error and returns `s₁`
itself — every wallet field is exactly as it was after the first call and
the escrow is never released twice. -/
theorem claim_C4_complete_twice_invalid_state (p : Int) (s s₁ : CState)
    (h : complete_campaign p s = (s₁, none)) :
    complete_campaign p s₁ = (s₁, some Err.invalidState) := by
  unfold complete_campaign at h
  split at h
  case isTrue hcond =>
    have hs : s₁.campaign_status = CampaignStatus.completed := by
      have h1 := congrArg (fun x => x.1.campaign_status) h
      simpa using h1.symm
    unfold complete_campaign
    rw [hs]
    simp
  case isFalse hcond =>
    exact absurd (congrArg Prod.snd h) (by simp)

/-- State after the first successful `complete` of `scenario1` with the
default 15 percent platform fee. -/
def scenario1_completed : CState :=
  ⟨CampaignStatus.completed, EscrowStatus.released, 5000,
    ⟨10000, 0, 0, 5000⟩, ⟨4250, 0, 4250, 0⟩,
    [⟨TxType.escrow_release, TxStatus.completed, 5000, 750, 4250⟩]⟩

/-- C4 witness: concrete second `complete` on the spec's scenario fails with
the invalid-state error and leaves the post-first-call state untouched. -/
theorem claim_C4_witness :
    complete_campaign 15 scenario1_completed =
      (scenario1_completed, some Err.invalidState) :=
  claim_C4_complete_twice_invalid_state 15 scenario1 scenario1_completed (by decide)

/-- C5: on both escrow-closing completion paths — `_release_escrow` in
`campaigns.py` and the approval branch of `review_proof_of_work` — the net
amount credited to the influencer plus the platform fee equals the locked
amount `A` exactly, and the fee is the integer truncation of `A * p / 100`
(characterized by the floor bounds in the last two conjuncts). -/
theorem claim_C5_exact_reconciliation (p A : Int) (hp : 0 ≤ p) (hA : 0 ≤ A)
    (s : CState) (t : PState)
    (hs : s.escrow_status = EscrowStatus.locked) (hsa : s.escrow_amount = A)
    (ht : t.proof_status = PowStatus.pending) (hth : t.bid_has_escrow = true)
    (hte : t.escrow_status = EscrowStatus.locked) (hta : t.bid_amount = A) :
    ((release_escrow p false s).influencer_wallet.balance -
        s.influencer_wallet.balance) + platform_fee A p = A ∧
    ((review_proof_of_work p true t).1.influencer_wallet.balance -
        t.influencer_wallet.balance) + platform_fee A p = A ∧
    100 * platform_fee A p ≤ A * p ∧
    A * p < 100 * (platform_fee A p + 1) := by
  have hq : 0 ≤ A * p := mul_nonneg hA hp
  refine ⟨?_, ?_, ?_, ?_⟩
  · simp [release_escrow, hs, hsa]
  · simp [review_proof_of_work, ht, hth, hte, hta]
  · unfold platform_fee
    omega
  · unfold platform_fee
    omega

/-- C5 witness: the reconciliation at the spec's scenario (amount 5000,
10 percent fee). -/
theorem claim_C5_witness :
    ((release_escrow 10 false scenario1).influencer_wallet.balance -
        scenario1.influencer_wallet.balance) + platform_fee 5000 10 = 5000 ∧
    ((review_proof_of_work 10 true
        ⟨PowStatus.pending, CampaignStatus.published, 5000, true,
          EscrowStatus.locked, ⟨10000, 5000, 0, 0⟩, ⟨0, 0, 0, 0⟩, []⟩).1.influencer_wallet.balance -
        (0 : Int)) + platform_fee 5000 10 = 5000 ∧
    100 * platform_fee 5000 10 ≤ 5000 * 10 ∧
    (5000 : Int) * 10 < 100 * (platform_fee 5000 10 + 1) :=
  claim_C5_exact_reconciliation 10 5000 (by decide) (by decide)
    scenario1
    ⟨PowStatus.pending, CampaignStatus.published, 5000, true,
      EscrowStatus.locked, ⟨10000, 5000, 0, 0⟩, ⟨0, 0, 0, 0⟩, []⟩
    rfl rfl rfl rfl rfl rfl

/-- C10: for every withdrawal whose amount (converted to cents) is within
`balance - hold_balance`, the handler commits the hold
(`hold_balance += amount_cents`) and the `pending` withdrawal transaction,
and then raises the `NameError` of the response-building code, so the
caller receives an error even though the hold was persisted. -/
theorem claim_C10_withdrawal_commits_then_raises (amount : Int) (s : WState)
    (h : amount * 100 ≤ s.wallet.balance - s.wallet.hold_balance) :
    request_withdrawal amount s =
      ({ s with
          tx_log := s.tx_log ++
            [⟨TxType.withdrawal, TxStatus.pending, amount * 100, 0, amount * 100⟩]
          wallet :=
            { s.wallet with
              hold_balance := s.wallet.hold_balance + amount * 100 } },
        some Err.nameError) := by
  unfold request_withdrawal
  rw [if_neg (by omega)]
  norm_num

/-- C10 witness: a 50-unit (5000-cent) withdrawal from a wallet with 10000
available commits the hold and still errors. -/
theorem claim_C10_witness :
    request_withdrawal 50 ⟨⟨10000, 0, 0, 0⟩, []⟩ =
      (⟨⟨10000, 5000, 0, 0⟩,
          [⟨TxType.withdrawal, TxStatus.pending, 5000, 0, 5000⟩]⟩,
        some Err.nameError) :=
  claim_C10_withdrawal_commits_then_raises 50 ⟨⟨10000, 0, 0, 0⟩, []⟩ (by decide)

/-- Open campaign with one 50-cent pending bid, ample budget, and a brand
wallet whose balance is fully held in escrow (available = 100 - 100 = 0). -/
def c2_open_state : OState :=
  ⟨1000, 0, [⟨50, BidStatus.pending, 7, none⟩], ⟨100, 100, 0, 0⟩, [], []⟩

/-- C2 counterexample: the open-campaign escrow lock accepts a 50-cent bid
from a wallet with zero available balance (50 > balance - hold_balance), so
the claimed universal "fails iff amount > balance - hold_balance" is false;
moreover the lock changes `balance`, contradicting "balance is unchanged"
on success. -/
theorem claim_C2_counterexample :
    (open_accept_bid 0 c2_open_state).2 = none ∧
    c2_open_state.wallet.balance - c2_open_state.wallet.hold_balance < 50 ∧
    (open_accept_bid 0 c2_open_state).1.wallet.balance ≠
      c2_open_state.wallet.balance := by
  decide

/-- C2 (amended): the two lock sites behave differently.  The
direct-purchase lock of `create_campaign` fails with insufficient funds iff
`balance - hold_balance < price` and on success leaves `balance` unchanged,
increments `hold_balance`, and creates a `locked` hold with a `completed`
`escrow_lock` transaction.  The open-campaign bid-accept lock instead fails
with insufficient funds iff `balance < amount`, and on success decrements
`balance` and increments `hold_balance` by the amount. -/
theorem claim_C2_amended_lock_paths :
    (∀ (price : Int) (w : Wallet),
      (create_campaign_lock price w = Except.error Err.insufficientFunds ↔
        w.balance - w.hold_balance < price) ∧
      (¬ w.balance - w.hold_balance < price →
        create_campaign_lock price w = Except.ok
          ⟨{ w with hold_balance := w.hold_balance + price },
            ⟨TxType.escrow_lock, TxStatus.completed, price, 0, price⟩,
            EscrowStatus.locked⟩)) ∧
    (∀ (i : Nat) (s : OState) (bid : BidRow),
      s.bids[i]? = some bid → bid.bid_status = BidStatus.pending →
      bid.amount ≤ s.budget - s.budget_spent →
      (((open_accept_bid i s).2 = some Err.insufficientFunds) ↔
        s.wallet.balance < bid.amount) ∧
      (¬ s.wallet.balance < bid.amount →
        open_accept_bid i s =
          ({ s with
              tx_log := s.tx_log ++
                [⟨TxType.escrow_lock, TxStatus.completed, bid.amount, 0,
                  bid.amount⟩]
              escrows := s.escrows ++ [⟨EscrowStatus.locked, bid.amount⟩]
              wallet :=
                { s.wallet with
                  balance := s.wallet.balance - bid.amount
                  hold_balance := s.wallet.hold_balance + bid.amount }
              bids := s.bids.set i
                { bid with
                  bid_status := BidStatus.accepted
                  escrow_id := some s.escrows.length }
              budget_spent := s.budget_spent + bid.amount }, none))) := by
  constructor
  · intro price w
    constructor
    · unfold create_campaign_lock
      by_cases h : w.balance - w.hold_balance < price <;> simp [h]
    · intro h
      unfold create_campaign_lock
      simp [h]
  · intro i s bid hbid hst hbudget
    unfold open_accept_bid
    rw [hbid]
    simp only [hst]
    constructor
    · by_cases h : s.wallet.balance < bid.amount <;>
        simp [h, not_lt.mpr hbudget]
    · intro h
      simp [h, not_lt.mpr hbudget]

/-- Open campaign used by the C2 witness: a pending 50-cent bid and a
wallet with 100 balance of which 40 is already held. -/
def c2_witness_state : OState :=
  ⟨1000, 0, [⟨50, BidStatus.pending, 7, none⟩], ⟨100, 40, 0, 0⟩, [], []⟩

/-- C2 witness: the amended characterization applied to concrete wallets —
the direct lock of 5000 from a 10000-balance wallet succeeds without
touching `balance`, and the open-campaign lock of a 50-cent bid decrements
`balance` to 50 and raises `hold_balance` to 90. -/
theorem claim_C2_witness :
    create_campaign_lock 5000 ⟨10000, 0, 0, 0⟩ = Except.ok
      ⟨⟨10000, 5000, 0, 0⟩,
        ⟨TxType.escrow_lock, TxStatus.completed, 5000, 0, 5000⟩,
        EscrowStatus.locked⟩ ∧
    open_accept_bid 0 c2_witness_state =
      (⟨1000, 50, [⟨50, BidStatus.accepted, 7, some 0⟩], ⟨50, 90, 0, 0⟩,
          [⟨EscrowStatus.locked, 50⟩],
          [⟨TxType.escrow_lock, TxStatus.completed, 50, 0, 50⟩]⟩, none) := by
  constructor
  · exact (claim_C2_amended_lock_paths.1 5000 ⟨10000, 0, 0, 0⟩).2 (by decide)
  · have h := (claim_C2_amended_lock_paths.2 0 c2_witness_state
      ⟨50, BidStatus.pending, 7, none⟩ (by decide) (by decide) (by decide)).2
      (by decide)
    exact h

/-- Open campaign with two 8000-cent pending bids, a 20000-cent budget and
a brand wallet holding 20000, as in spec scenario 2. -/
def c3_two_bids : OState :=
  ⟨20000, 0, [⟨8000, BidStatus.pending, 1, none⟩, ⟨8000, BidStatus.pending, 2, none⟩],
    ⟨20000, 0, 0, 0⟩, [], []⟩

/-- C3 counterexample: the open-campaign accept operation (the one that
locks escrow) does not reject the other pending bids — after accepting bid
0, bid 1 is still `pending` — and accepting bid 1 afterwards also succeeds,
leaving the same campaign with two `accepted` bids, so both parts of the
claimed invariant are false on this path. -/
theorem claim_C3_counterexample :
    (open_accept_bid 0 c3_two_bids).1.bids.map BidRow.bid_status =
      [BidStatus.accepted, BidStatus.pending] ∧
    (open_accept_bid 1 (open_accept_bid 0 c3_two_bids).1).2 = none ∧
    (open_accept_bid 1 (open_accept_bid 0 c3_two_bids).1).1.bids.map
      BidRow.bid_status = [BidStatus.accepted, BidStatus.accepted] := by
  decide

/-- Element-wise description of `accept_cascade`: position `k` of the
result is position `k` of the input with the bid at absolute index `i`
accepted and every other pending bid rejected (`j` is the index of the
list's head). -/
theorem accept_cascade_get (i : Nat) (l : List BidRow) (j k : Nat) :
    (accept_cascade i j l)[k]? = (l[k]?).map (fun b =>
      if j + k = i then { b with bid_status := BidStatus.accepted }
      else if b.bid_status = BidStatus.pending then
        { b with bid_status := BidStatus.rejected }
      else b) := by
  induction l generalizing j k with
  | nil => simp [accept_cascade]
  | cons b rest ih =>
    cases k with
    | zero => simp [accept_cascade]
    | succ k =>
      simp only [accept_cascade, List.getElem?_cons_succ, ih (j + 1) k]
      have hjk : j + 1 + k = j + (k + 1) := by omega
      rw [hjk]

/-- C3 (amended): the repository's two accept operations each implement
half of the claim.  The `bids.py` accept sets the accepted bid to
`accepted` and every other pending bid on the campaign to `rejected`, but
performs no escrow lock and touches no wallet, escrow or ledger row; the
`open_campaigns.py` accept locks escrow but leaves every other bid exactly
as it was, so one campaign can accumulate several accepted bids. -/
theorem claim_C3_amended_accept_paths :
    (∀ (i : Nat) (s : BState) (bid : BidRow),
      s.bids[i]? = some bid → bid.bid_status = BidStatus.pending →
      (bids_accept_bid i s).2 = none ∧
      (bids_accept_bid i s).1.wallet = s.wallet ∧
      (bids_accept_bid i s).1.escrows = s.escrows ∧
      (bids_accept_bid i s).1.tx_log = s.tx_log ∧
      (bids_accept_bid i s).1.bids[i]? =
        some { bid with bid_status := BidStatus.accepted } ∧
      (∀ (j : Nat) (b : BidRow), j ≠ i → s.bids[j]? = some b →
        b.bid_status = BidStatus.pending →
        (bids_accept_bid i s).1.bids[j]? =
          some { b with bid_status := BidStatus.rejected })) ∧
    (∀ (i : Nat) (s : OState),
      (open_accept_bid i s).2 = none →
      ∀ (j : Nat), j ≠ i → (open_accept_bid i s).1.bids[j]? = s.bids[j]?) := by
  constructor
  · intro i s bid hbid hst
    have hrun : bids_accept_bid i s =
        ({ s with
            bids := accept_cascade i 0 s.bids
            campaign_influencer_id := some bid.influencer_id
            campaign_status := CampaignStatus.accepted }, none) := by
      unfold bids_accept_bid
      rw [hbid]
      simp [hst]
    refine ⟨by rw [hrun], by rw [hrun], by rw [hrun], by rw [hrun], ?_, ?_⟩
    · rw [hrun]
      simp [accept_cascade_get, hbid]
    · intro j b hji hb hbp
      rw [hrun]
      simp only [accept_cascade_get, hb, Option.map_some']
      simp [hbp, Nat.zero_add, hji]
  · intro i s hok j hji
    unfold open_accept_bid at hok ⊢
    split at hok
    next heq => simp at hok
    next bid heq =>
      split at hok
      next h1 => simp at hok
      next h1 =>
        split at hok
        next h2 => simp at hok
        next h2 =>
          split at hok
          next h3 => simp at hok
          next h3 =>
            simp [h1, h2, h3, List.getElem?_set_ne (Ne.symm hji)]

/-- C3 witness: the amended characterization at spec scenario 2's bids —
the `bids.py` accept of bid 0 rejects the pending bid 1 without any wallet
movement, and the open-campaign accept of bid 0 leaves bid 1 untouched. -/
theorem claim_C3_witness :
    (bids_accept_bid 0
        ⟨CampaignStatus.open_, none,
          [⟨8000, BidStatus.pending, 1, none⟩, ⟨8000, BidStatus.pending, 2, none⟩],
          ⟨20000, 0, 0, 0⟩, [], []⟩).1.bids[1]? =
      some ⟨8000, BidStatus.rejected, 2, none⟩ ∧
    (bids_accept_bid 0
        ⟨CampaignStatus.open_, none,
          [⟨8000, BidStatus.pending, 1, none⟩, ⟨8000, BidStatus.pending, 2, none⟩],
          ⟨20000, 0, 0, 0⟩, [], []⟩).1.tx_log = [] ∧
    (open_accept_bid 0 c3_two_bids).1.bids[1]? =
      some ⟨8000, BidStatus.pending, 2, none⟩ := by
  refine ⟨?_, ?_, ?_⟩
  · exact (claim_C3_amended_accept_paths.1 0
      ⟨CampaignStatus.open_, none,
        [⟨8000, BidStatus.pending, 1, none⟩, ⟨8000, BidStatus.pending, 2, none⟩],
        ⟨20000, 0, 0, 0⟩, [], []⟩
      ⟨8000, BidStatus.pending, 1, none⟩ (by decide) (by decide)).2.2.2.2.2 1
      ⟨8000, BidStatus.pending, 2, none⟩ (by decide) (by decide) (by decide)
  · exact (claim_C3_amended_accept_paths.1 0
      ⟨CampaignStatus.open_, none,
        [⟨8000, BidStatus.pending, 1, none⟩, ⟨8000, BidStatus.pending, 2, none⟩],
        ⟨20000, 0, 0, 0⟩, [], []⟩
      ⟨8000, BidStatus.pending, 1, none⟩ (by decide) (by decide)).2.2.2.1
  · exact claim_C3_amended_accept_paths.2 0 c3_two_bids (by decide) 1 (by decide)

/-- C6: approving a pending proof of work whose bid holds a locked escrow
releases the hold and credits the influencer's wallet with the net amount,
while the payer's (brand's) wallet is returned entirely unchanged — no
field of it is modified, even though the hold transitions from locked to
released. -/
theorem claim_C6_approval_brand_frame (p : Int) (t : PState)
    (ht : t.proof_status = PowStatus.pending) (hh : t.bid_has_escrow = true)
    (he : t.escrow_status = EscrowStatus.locked) :
    (review_proof_of_work p true t).2 = none ∧
    (review_proof_of_work p true t).1.escrow_status = EscrowStatus.released ∧
    (review_proof_of_work p true t).1.influencer_wallet.balance =
      t.influencer_wallet.balance +
        (t.bid_amount - platform_fee t.bid_amount p) ∧
    (review_proof_of_work p true t).1.influencer_wallet.total_earned =
      t.influencer_wallet.total_earned +
        (t.bid_amount - platform_fee t.bid_amount p) ∧
    (review_proof_of_work p true t).1.brand_wallet = t.brand_wallet := by
  simp [review_proof_of_work, ht, hh, he]

/-- C6 witness: approving an 8000-cent bid's proof with the default
15 percent fee credits the influencer 6800 and leaves the brand wallet
⟨20000, 8000, 0, 0⟩ untouched. -/
theorem claim_C6_witness :
    (review_proof_of_work 15 true
        ⟨PowStatus.pending, CampaignStatus.in_progress, 8000, true,
          EscrowStatus.locked, ⟨20000, 8000, 0, 0⟩, ⟨0, 0, 0, 0⟩, []⟩).2 = none ∧
    (review_proof_of_work 15 true
        ⟨PowStatus.pending, CampaignStatus.in_progress, 8000, true,
          EscrowStatus.locked, ⟨20000, 8000, 0, 0⟩, ⟨0, 0, 0, 0⟩, []⟩).1.escrow_status =
      EscrowStatus.released ∧
    (review_proof_of_work 15 true
        ⟨PowStatus.pending, CampaignStatus.in_progress, 8000, true,
          EscrowStatus.locked, ⟨20000, 8000, 0, 0⟩, ⟨0, 0, 0, 0⟩, []⟩).1.influencer_wallet.balance =
      0 + (8000 - platform_fee 8000 15) ∧
    (review_proof_of_work 15 true
        ⟨PowStatus.pending, CampaignStatus.in_progress, 8000, true,
          EscrowStatus.locked, ⟨20000, 8000, 0, 0⟩, ⟨0, 0, 0, 0⟩, []⟩).1.influencer_wallet.total_earned =
      0 + (8000 - platform_fee 8000 15) ∧
    (review_proof_of_work 15 true
        ⟨PowStatus.pending, CampaignStatus.in_progress, 8000, true,
          EscrowStatus.locked, ⟨20000, 8000, 0, 0⟩, ⟨0, 0, 0, 0⟩, []⟩).1.brand_wallet =
      ⟨20000, 8000, 0, 0⟩ :=
  claim_C6_approval_brand_frame 15
    ⟨PowStatus.pending, CampaignStatus.in_progress, 8000, true,
      EscrowStatus.locked, ⟨20000, 8000, 0, 0⟩, ⟨0, 0, 0, 0⟩, []⟩
    rfl rfl rfl

/-- C7: resolving a dispute fails with the already-resolved error exactly
when the dispute is `resolved` or `closed` (leaving the state untouched);
otherwise, for a `disputed` hold, it succeeds, splits the hold with
`refund_amount = floor(amount * p / 100)` (the two floor bounds), removes
the full amount from the brand's `hold_balance`, credits the influencer the
fee-adjusted remainder when it is positive, closes the hold `refunded` when
`p = 100` and `released` otherwise, and sets the campaign `cancelled` when
`p = 100` and `completed` otherwise. -/
theorem claim_C7_resolve_dispute_split (p : Int) (s : DState) :
    ((s.dispute_status = DisputeStatus.resolved ∨
        s.dispute_status = DisputeStatus.closed) →
      resolve_dispute p s = (s, some Err.alreadyResolved)) ∧
    (s.dispute_status ≠ DisputeStatus.resolved →
      s.dispute_status ≠ DisputeStatus.closed →
      s.escrow_status = EscrowStatus.disputed →
      (resolve_dispute p s).2 = none ∧
      (resolve_dispute p s).1.campaign_status =
        (if p = 100 then CampaignStatus.cancelled else CampaignStatus.completed) ∧
      (resolve_dispute p s).1.escrow_status =
        (if p = 100 then EscrowStatus.refunded else EscrowStatus.released) ∧
      (resolve_dispute p s).1.brand_wallet.hold_balance =
        s.brand_wallet.hold_balance - s.escrow_amount ∧
      100 * (s.escrow_amount * p / 100) ≤ s.escrow_amount * p ∧
      s.escrow_amount * p < 100 * (s.escrow_amount * p / 100 + 1) ∧
      (0 < s.escrow_amount - s.escrow_amount * p / 100 →
        (resolve_dispute p s).1.influencer_wallet.balance =
          s.influencer_wallet.balance +
            ((s.escrow_amount - s.escrow_amount * p / 100) -
              (s.escrow_amount - s.escrow_amount * p / 100) * 10 / 100))) := by
  constructor
  · intro h
    unfold resolve_dispute
    rw [if_pos h]
  · intro h1 h2 he
    have hcond : ¬(s.dispute_status = DisputeStatus.resolved ∨
        s.dispute_status = DisputeStatus.closed) := by
      simp [h1, h2]
    by_cases hr : (0 : Int) < s.escrow_amount * p / 100 <;>
      by_cases hl : (0 : Int) < s.escrow_amount - s.escrow_amount * p / 100 <;>
        refine ⟨?_, ?_, ?_, ?_, ?_, ?_, ?_⟩ <;>
          first
            | omega
            | (simp [resolve_dispute, hcond, he, hr, hl]; try omega)

/-- Disputed campaign of spec scenario 4: hold of 10000 cents, brand
wallet holding it, empty influencer wallet. -/
def scenario4 : DState :=
  ⟨DisputeStatus.open_, CampaignStatus.disputed, EscrowStatus.disputed, 10000,
    ⟨20000, 10000, 0, 0⟩, ⟨0, 0, 0, 0⟩, []⟩

/-- C7 witness: resolving scenario 4 with a 30 percent refund succeeds,
ends `completed` with the hold `released`, returns the full 10000 from the
brand's hold, bounds the 3000 refund, and credits the influencer the
fee-adjusted 7000 remainder. -/
theorem claim_C7_witness :
    (resolve_dispute 30 scenario4).2 = none ∧
    (resolve_dispute 30 scenario4).1.campaign_status =
      (if (30 : Int) = 100 then CampaignStatus.cancelled
        else CampaignStatus.completed) ∧
    (resolve_dispute 30 scenario4).1.escrow_status =
      (if (30 : Int) = 100 then EscrowStatus.refunded
        else EscrowStatus.released) ∧
    (resolve_dispute 30 scenario4).1.brand_wallet.hold_balance =
      scenario4.brand_wallet.hold_balance - scenario4.escrow_amount ∧
    100 * (scenario4.escrow_amount * 30 / 100) ≤ scenario4.escrow_amount * 30 ∧
    scenario4.escrow_amount * 30 <
      100 * (scenario4.escrow_amount * 30 / 100 + 1) ∧
    (0 < scenario4.escrow_amount - scenario4.escrow_amount * 30 / 100 →
      (resolve_dispute 30 scenario4).1.influencer_wallet.balance =
        scenario4.influencer_wallet.balance +
          ((scenario4.escrow_amount - scenario4.escrow_amount * 30 / 100) -
            (scenario4.escrow_amount - scenario4.escrow_amount * 30 / 100) *
              10 / 100)) :=
  (claim_C7_resolve_dispute_split 30 scenario4).2 (by decide) (by decide) rfl

/-- C8 counterexample: resolving a disputed 10000-cent hold with
`refund_percentage = 0` does not produce the same wallet end state as the
brand calling `complete`, even when the campaign engine's fee percent is
set to the dispute path's own hardcoded 10: `complete` increments the
brand's `total_spent` by the hold amount while the dispute path leaves it
unchanged, so the brand wallets differ. -/
theorem claim_C8_counterexample :
    (resolve_dispute 0
        ⟨DisputeStatus.open_, CampaignStatus.disputed, EscrowStatus.disputed,
          10000, ⟨20000, 10000, 0, 0⟩, ⟨0, 0, 0, 0⟩, []⟩).1.brand_wallet ≠
      (complete_campaign 10
          ⟨CampaignStatus.published, EscrowStatus.locked, 10000,
            ⟨20000, 10000, 0, 0⟩, ⟨0, 0, 0, 0⟩, []⟩).1.brand_wallet := by
  decide

/-- C8 (amended): the boundary coincidences that do hold.  Resolving with
`refund_percentage = 100` ends with exactly the wallets, hold status,
campaign status and ledger entries of the influencer's `reject`.  Resolving
with `refund_percentage = 0` matches `complete` run with fee percent 10
(the dispute path's hardcoded fee) on the influencer wallet, hold status,
campaign status and ledger entries, but the brand wallets agree only up to
`total_spent`: `complete` adds the hold amount to `total_spent` and the
dispute path does not. -/
theorem claim_C8_amended_boundaries (A : Int) (bw iw : Wallet) (log : List Tx)
    (hA : 0 < A) :
    (let rd := (resolve_dispute 100 ⟨DisputeStatus.open_,
        CampaignStatus.disputed, EscrowStatus.disputed, A, bw, iw, log⟩).1
     let rj := (reject_campaign 10 ⟨CampaignStatus.pending,
        EscrowStatus.locked, A, bw, iw, log⟩).1
     rd.brand_wallet = rj.brand_wallet ∧
     rd.influencer_wallet = rj.influencer_wallet ∧
     rd.escrow_status = rj.escrow_status ∧
     rd.campaign_status = rj.campaign_status ∧
     rd.tx_log = rj.tx_log) ∧
    (let rd := (resolve_dispute 0 ⟨DisputeStatus.open_,
        CampaignStatus.disputed, EscrowStatus.disputed, A, bw, iw, log⟩).1
     let cp := (complete_campaign 10 ⟨CampaignStatus.published,
        EscrowStatus.locked, A, bw, iw, log⟩).1
     rd.influencer_wallet = cp.influencer_wallet ∧
     rd.escrow_status = cp.escrow_status ∧
     rd.campaign_status = cp.campaign_status ∧
     rd.tx_log = cp.tx_log ∧
     rd.brand_wallet = { cp.brand_wallet with total_spent := bw.total_spent } ∧
     cp.brand_wallet.total_spent = bw.total_spent + A) := by
  have h100 : A * 100 / 100 = A := by omega
  have h0 : A * 0 / 100 = 0 := by omega
  constructor
  · refine ⟨?_, ?_, ?_, ?_, ?_⟩ <;>
      simp [resolve_dispute, reject_campaign, release_escrow, platform_fee,
        h100, h0, hA, lt_irrefl]
  · refine ⟨?_, ?_, ?_, ?_, ?_, ?_⟩ <;>
      simp [resolve_dispute, complete_campaign, release_escrow, platform_fee,
        h100, h0, hA, lt_irrefl]

/-- C8 witness: the amended boundary equivalences at the concrete disputed
hold of 10000 cents used by the counterexample. -/
theorem claim_C8_witness :
    (let rd := (resolve_dispute 100 ⟨DisputeStatus.open_,
        CampaignStatus.disputed, EscrowStatus.disputed, 10000,
        ⟨20000, 10000, 0, 0⟩, ⟨0, 0, 0, 0⟩, []⟩).1
     let rj := (reject_campaign 10 ⟨CampaignStatus.pending,
        EscrowStatus.locked, 10000, ⟨20000, 10000, 0, 0⟩, ⟨0, 0, 0, 0⟩, []⟩).1
     rd.brand_wallet = rj.brand_wallet ∧
     rd.influencer_wallet = rj.influencer_wallet ∧
     rd.escrow_status = rj.escrow_status ∧
     rd.campaign_status = rj.campaign_status ∧
     rd.tx_log = rj.tx_log) ∧
    (let rd := (resolve_dispute 0 ⟨DisputeStatus.open_,
        CampaignStatus.disputed, EscrowStatus.disputed, 10000,
        ⟨20000, 10000, 0, 0⟩, ⟨0, 0, 0, 0⟩, []⟩).1
     let cp := (complete_campaign 10 ⟨CampaignStatus.published,
        EscrowStatus.locked, 10000, ⟨20000, 10000, 0, 0⟩, ⟨0, 0, 0, 0⟩, []⟩).1
     rd.influencer_wallet = cp.influencer_wallet ∧
     rd.escrow_status = cp.escrow_status ∧
     rd.campaign_status = cp.campaign_status ∧
     rd.tx_log = cp.tx_log ∧
     rd.brand_wallet =
       { cp.brand_wallet with total_spent := (⟨20000, 10000, 0, 0⟩ : Wallet).total_spent } ∧
     cp.brand_wallet.total_spent = (⟨20000, 10000, 0, 0⟩ : Wallet).total_spent + 10000) :=
  claim_C8_amended_boundaries 10000 ⟨20000, 10000, 0, 0⟩ ⟨0, 0, 0, 0⟩ []
    (by decide)

/-- C9: a pending affiliate commission is paid — wallet `balance` and
`total_earned` credited with the net commission, a `completed` transaction
logged, commission set to `paid` — exactly on the order-status transition
into `fulfilled`: any update that is not such a transition (including a
repeated update to `fulfilled`) leaves the wallet untouched; a non-pending
commission is never paid again and never moves money; transitioning to
`cancelled` while the commission is pending cancels it with no wallet
mutation; and the commission can only become `paid` if it already was, or
was pending and the update was the transition into `fulfilled`. -/
theorem claim_C9_commission_pay_on_fulfillment (new_status : OrderStatus)
    (s : OrdState) :
    (s.commission_status = CommissionStatus.pending →
      new_status = OrderStatus.fulfilled →
      s.order_status ≠ OrderStatus.fulfilled →
      update_order_status new_status s =
        { s with
            order_status := OrderStatus.fulfilled
            commission_status := CommissionStatus.paid
            wallet :=
              { s.wallet with
                balance := s.wallet.balance + s.net_commission_cents
                total_earned := s.wallet.total_earned + s.net_commission_cents }
            tx_log := s.tx_log ++
              [⟨TxType.affiliate_commission, TxStatus.completed,
                s.net_commission_cents, s.platform_fee_cents,
                s.net_commission_cents⟩] }) ∧
    ((new_status ≠ OrderStatus.fulfilled ∨
        s.order_status = OrderStatus.fulfilled) →
      (update_order_status new_status s).wallet = s.wallet) ∧
    (s.commission_status ≠ CommissionStatus.pending →
      (update_order_status new_status s).wallet = s.wallet ∧
      (update_order_status new_status s).commission_status =
        s.commission_status) ∧
    (s.commission_status = CommissionStatus.pending →
      new_status = OrderStatus.cancelled →
      s.order_status ≠ OrderStatus.cancelled →
      update_order_status new_status s =
        { s with
            order_status := OrderStatus.cancelled
            commission_status := CommissionStatus.cancelled }) ∧
    ((update_order_status new_status s).commission_status =
        CommissionStatus.paid →
      s.commission_status = CommissionStatus.paid ∨
        (s.commission_status = CommissionStatus.pending ∧
          new_status = OrderStatus.fulfilled ∧
          s.order_status ≠ OrderStatus.fulfilled)) := by
  refine ⟨?_, ?_, ?_, ?_, ?_⟩
  · intro hc hn ho
    simp [update_order_status, hc, hn, ho]
  · intro h
    simp only [update_order_status]
    split_ifs <;> simp_all
  · intro h
    simp only [update_order_status]
    split_ifs <;> simp_all
  · intro hc hn ho
    simp [update_order_status, hc, hn, ho]
  · intro h
    simp only [update_order_status] at h
    split_ifs at h <;> simp_all

/-- Affiliate order of spec scenario 5 before fulfillment: pending order,
pending commission of net 13500 cents with a 1500-cent platform fee, empty
influencer wallet. -/
def scenario5 : OrdState :=
  ⟨OrderStatus.pending, CommissionStatus.pending, 13500, 1500, ⟨0, 0, 0, 0⟩, []⟩

/-- C9 witness: marking scenario 5's order fulfilled pays the commission
into the wallet exactly once. -/
theorem claim_C9_witness :
    update_order_status OrderStatus.fulfilled scenario5 =
      { scenario5 with
          order_status := OrderStatus.fulfilled
          commission_status := CommissionStatus.paid
          wallet :=
            { scenario5.wallet with
              balance := scenario5.wallet.balance + scenario5.net_commission_cents
              total_earned :=
                scenario5.wallet.total_earned + scenario5.net_commission_cents }
          tx_log := scenario5.tx_log ++
            [⟨TxType.affiliate_commission, TxStatus.completed,
              scenario5.net_commission_cents, scenario5.platform_fee_cents,
              scenario5.net_commission_cents⟩] } :=
  (claim_C9_commission_pay_on_fulfillment OrderStatus.fulfilled scenario5).1
    rfl rfl (by decide)

end DigitalAgency
